import Mathlib

set_option linter.unusedVariables false

/-!
Shallow embedding of the video-generation / face-swap orchestration service
(`src/server/services/replicate.ts`, `src/server/services/costTracker.ts`,
`src/server/routes.ts`).

External HTTP calls are modelled by an oracle ("world") that gives, for each
call the code makes, the outcome of that call: either a parsed provider
response or a thrown transport exception.  Wall-clock durations and JSON
payload byte sizes recorded by the cost tracker are timing metadata and are
elided from `UsageRecord`; every other field of every record is translated
from the source.  Persistence (`storage.*`) is modelled as always succeeding
and is observed through traces of patches; `trackApiUsage` swallows storage
errors in the source, so it never affects control flow.
-/

/-- The `output` field of a Replicate prediction: a URL string, an ordered
array of URL strings, or null (`ReplicateResponse.output` in the source). -/
inductive OutputVal where
  | vstr (s : String)
  | varr (l : List String)
  | vnull
deriving DecidableEq

/-- JavaScript truthiness of an `output` value: the empty string and `null`
are falsy, every array (even an empty one) is truthy. -/
def OutputVal.truthy : OutputVal → Bool
  | .vstr s => s != ""
  | .varr _ => true
  | .vnull => false

/-- Parsed body of a Replicate API response (`ReplicateResponse`). -/
structure RResponse where
  id : String
  status : String
  output : OutputVal
  error : Option String
deriving DecidableEq

/-- JavaScript truthiness of a nullable string field (`null`/absent and the
empty string are falsy). -/
def jsTruthy : Option String → Bool
  | some s => s != ""
  | none => false

/-- The JS idiom `e || alt` on a nullable string. -/
def jsOr (e : Option String) (alt : String) : String :=
  match e with
  | some s => if s == "" then alt else s
  | none => alt

/-- The JS idiom `responseData.id || null`. -/
def jsIdOrNull (data : RResponse) : Option String :=
  if data.id == "" then none else some data.id

/-- Outcome of one `fetch` + `response.json()` round trip: a parsed response
together with the HTTP status, or a thrown exception (network error or
invalid JSON). -/
inductive FetchResult where
  | resp (ok : Bool) (code : Nat) (data : RResponse)
  | exn (msg : String)
deriving DecidableEq

/-- Whether a fetch outcome counts as a success for the generation fallback
loop: `backupResponse.ok && !backupResponseData.error`. -/
def isFetchSuccess : FetchResult → Bool
  | .resp ok _ data => ok && !(jsTruthy data.error)
  | .exn _ => false

/-- Cost multipliers of `costTracker.ts` (`COST_MULTIPLIERS`), in thousandths
of a USD; any unknown endpoint falls back to the `default` entry. -/
def COST_MULTIPLIERS : String → Nat
  | "replicate/kling-video-generation" => 50
  | "replicate/face-swap" => 30
  | "replicate/status-check" => 1
  | _ => 10

/-- One row of the api-usage ledger (`trackApiUsage` in `costTracker.ts`);
payload sizes and wall-clock duration are elided timing metadata. -/
structure UsageRecord where
  userId : Nat
  endpoint : String
  requestId : Option String
  status : String
  errorMessage : Option String
  estimatedCost : Nat
deriving DecidableEq

/-- `costTrackerService.trackApiUsage`: builds the appended ledger row.  The
source swallows storage failures, so creating the row is total. -/
def trackApiUsage (userId : Nat) (endpoint : String) (requestId : Option String)
    (status : String) (errorMessage : Option String) : UsageRecord :=
  { userId := userId, endpoint := endpoint, requestId := requestId,
    status := status, errorMessage := errorMessage,
    estimatedCost := COST_MULTIPLIERS endpoint }

/-- Primary video model identifier (`VIDEO_MODEL`). -/
def VIDEO_MODEL : String :=
  "stability-ai/stable-video-diffusion:3f0457e4619daac51203dedb472816fd4af51f3149fa7a9e0b5ffcf1b8172438"

/-- Ordered backup model identifiers (`BACKUP_VIDEO_MODELS`). -/
def BACKUP_VIDEO_MODELS : List String :=
  ["cjwbw/damo-text-to-video:1e205ea73084bd1f48cf12292218629e3b9fd9e63fc45f7c34a0267a4a8c175e",
   "stability-ai/stable-video-diffusion:cf91c35338de27f2a2e4e00358c1e6acca289577de01f59ca9fed2c556c28c60",
   "anotherjesse/zeroscope-v2-xl:9f747673945c62801b13b4a6f2fa26925f92c4193684f23e1dc6d7fa88710286",
   "cerspense/zeroscope_v2_576w:63da0069206d88e3808a349a1cd9a07d39123e0e8c83566abbad0ddb8580e9c5"]

/-- `startsWithChars s sub` : `sub` is a prefix of `s` (character lists). -/
def startsWithChars : List Char → List Char → Bool
  | _, [] => true
  | [], _ :: _ => false
  | c :: s, d :: t => c == d && startsWithChars s t

/-- `hasSubChars sub s` : `sub` occurs as a contiguous substring of `s`. -/
def hasSubChars (sub : List Char) : List Char → Bool
  | [] => startsWithChars [] sub
  | c :: t => startsWithChars (c :: t) sub || hasSubChars sub t

/-- JavaScript `s.includes(sub)`: substring containment. -/
def strIncludes (s sub : String) : Bool :=
  hasSubChars sub.data s.data

/-- The JSON `input` object of a video-generation submit; fields absent from
a given payload shape are `none`. -/
structure VideoInput where
  prompt : String
  width : Option Nat := none
  height : Option Nat := none
  num_frames : Option Nat := none
  fps : Option Nat := none
  video_length : Option String := none
  sizing_strategy : Option String := none
  frames_per_second : Option Nat := none
deriving DecidableEq

/-- Payload used for the primary model (`replicate.ts` lines 122-129). -/
def primaryInput (prompt : String) : VideoInput :=
  { prompt := prompt, num_frames := some 24, fps := some 8 }

/-- Payload shaping for backup models by substring match on the model
identifier (`replicate.ts` lines 181-214). -/
def backupInput (backupModel prompt : String) : VideoInput :=
  if strIncludes backupModel "zeroscope" then
    { prompt := prompt }
  else if strIncludes backupModel "stability-ai" then
    { prompt := prompt, video_length := some "14_frames_with_svd",
      sizing_strategy := some "maintain_aspect_ratio", frames_per_second := some 7 }
  else
    { prompt := prompt, width := some 512, height := some 512,
      num_frames := some 24, fps := some 8 }

/-- One attempted generation submit: the model, the shaped payload that was
POSTed, and the outcome of the call. -/
structure SubmitEvent where
  model : String
  input : VideoInput
  outcome : FetchResult
deriving DecidableEq

/-- An attempted call whose HTTP response was received and parsed (as opposed
to one whose transport threw). -/
def SubmitEvent.parsed (e : SubmitEvent) : Bool :=
  match e.outcome with
  | .resp _ _ _ => true
  | .exn _ => false

/-- Oracle for `generateVideo`: the outcome of the primary submit and of the
submit for each 0-based backup index. -/
structure GenWorld where
  primary : FetchResult
  backups : Nat → FetchResult

/-- Observable result of a `generateVideo` run: the returned response or
thrown error, the trace of submits in order, and the usage rows appended in
order. -/
structure GenResult where
  result : Except String RResponse
  submits : List SubmitEvent
  usage : List UsageRecord

/-- `` responseData.error || `API returned ${response.status}` ``. -/
def failReasonOf (data : RResponse) (code : Nat) : String :=
  jsOr data.error (s!"API returned {code}")

/-- The entry pushed onto `errors` for a failed backup attempt at 0-based
index `i` (`replicate.ts` lines 259 and 275). -/
def backupFailEntry (i : Nat) : FetchResult → String
  | .exn msg => s!"Backup model {i + 1} exception: {msg}"
  | .resp _ code data => s!"Backup model {i + 1} error: {failReasonOf data code}"

/-- The backup loop of `generateVideo` (`replicate.ts` lines 177-282): tries
each remaining model in order (`i` is the 0-based index of the head),
accumulating failure entries in `errs`; a submit whose transport throws is
caught, adds an entry, and appends no usage row; when every model fails the
aggregated error is thrown. -/
def tryBackups (prompt : String) (userId : Nat) (w : Nat → FetchResult) :
    List String → Nat → List String → GenResult
  | [], _, errs =>
    { result := .error ("All video generation models failed: " ++ String.intercalate ", " errs),
      submits := [], usage := [] }
  | m :: ms, i, errs =>
    match w i with
    | .exn msg =>
      let r := tryBackups prompt userId w ms (i + 1) (errs ++ [backupFailEntry i (.exn msg)])
      { result := r.result,
        submits := ⟨m, backupInput m prompt, .exn msg⟩ :: r.submits,
        usage := r.usage }
    | .resp ok code data =>
      if ok && !(jsTruthy data.error) then
        { result := .ok data,
          submits := [⟨m, backupInput m prompt, .resp ok code data⟩],
          usage := [trackApiUsage userId (s!"replicate/backup-model-{i + 1}-success")
            (some data.id) "success" none] }
      else
        let r := tryBackups prompt userId w ms (i + 1)
          (errs ++ [backupFailEntry i (.resp ok code data)])
        { result := r.result,
          submits := ⟨m, backupInput m prompt, .resp ok code data⟩ :: r.submits,
          usage := trackApiUsage userId (s!"replicate/backup-model-{i + 1}-error")
            (jsIdOrNull data) "error" (some (failReasonOf data code)) :: r.usage }

/-- `ReplicateService.generateVideo` (`replicate.ts` lines 99-315).  A primary
submit whose transport throws is caught by the outer handler, tracked, and
rethrown without trying any backup; an unsuccessful primary response is
tracked and starts the backup loop; if the loop also fails, the aggregated
error is itself caught by the outer handler, which appends one more usage row
before rethrowing. -/
def generateVideo (prompt : String) (userId : Nat) (w : GenWorld) : GenResult :=
  match w.primary with
  | .exn msg =>
    { result := .error msg,
      submits := [⟨VIDEO_MODEL, primaryInput prompt, .exn msg⟩],
      usage := [trackApiUsage userId "replicate/stable-video-diffusion" none "error" (some msg)] }
  | .resp ok code data =>
    if ok && !(jsTruthy data.error) then
      { result := .ok data,
        submits := [⟨VIDEO_MODEL, primaryInput prompt, .resp ok code data⟩],
        usage := [trackApiUsage userId "replicate/stable-video-diffusion"
          (some data.id) "success" none] }
    else
      let reason := failReasonOf data code
      let r := tryBackups prompt userId w.backups BACKUP_VIDEO_MODELS 0
        [s!"Primary model error: {reason}"]
      let usage1 := trackApiUsage userId "replicate/primary-model-error"
        (jsIdOrNull data) "error" (some reason) :: r.usage
      match r.result with
      | .ok d =>
        { result := .ok d,
          submits := ⟨VIDEO_MODEL, primaryInput prompt, .resp ok code data⟩ :: r.submits,
          usage := usage1 }
      | .error m =>
        { result := .error m,
          submits := ⟨VIDEO_MODEL, primaryInput prompt, .resp ok code data⟩ :: r.submits,
          usage := usage1 ++ [trackApiUsage userId "replicate/stable-video-diffusion"
            none "error" (some m)] }

/-- Collapse a succeeded prediction output: a non-empty array is replaced by
its first element (`replicate.ts` lines 378-381). -/
def collapseOutput (data : RResponse) : RResponse :=
  match data.output with
  | .varr (h :: _) => { data with output := .vstr h }
  | _ => data

/-- Result of one service-level poll or submit helper: the returned response
or thrown error, plus the usage rows appended. -/
structure PollResult where
  result : Except String RResponse
  usage : List UsageRecord

/-- Message of the error thrown by `checkVideoStatus` on an unsuccessful
response (`replicate.ts` line 362). -/
def statusCheckErrMsg (data : RResponse) (code : Nat) : String :=
  s!"Replicate status check API error: {failReasonOf data code}"

/-- `ReplicateService.checkVideoStatus` (`replicate.ts` lines 323-401): polls
a prediction; a non-ok response or an `error` field is tracked (line 350) and
then rethrown as a detailed error (line 362) — that throw is caught by the
function's own catch (lines 384-399), which appends a SECOND usage row with
the detailed message before rethrowing.  On success a non-empty array output
of a succeeded prediction is collapsed to its first URL.  So the success and
transport-exception paths append one row each, the error-response path two. -/
def checkVideoStatus (predictionId : String) (userId : Nat) (f : FetchResult) : PollResult :=
  match f with
  | .exn msg =>
    { result := .error msg,
      usage := [trackApiUsage userId "replicate/status-check" (some predictionId)
        "error" (some msg)] }
  | .resp ok code data =>
    if !ok || jsTruthy data.error then
      { result := .error (statusCheckErrMsg data code),
        usage := [trackApiUsage userId "replicate/status-check" (some predictionId)
          "error" (some (failReasonOf data code)),
        trackApiUsage userId "replicate/status-check" (some predictionId)
          "error" (some (statusCheckErrMsg data code))] }
    else
      { result := .ok (if data.status == "succeeded" then collapseOutput data else data),
        usage := [trackApiUsage userId "replicate/status-check" (some predictionId)
          "success" none] }

/-- Message of the error thrown by `swapFace` on an unsuccessful response
(`replicate.ts` line 469). -/
def swapFaceErrMsg (data : RResponse) (code : Nat) : String :=
  s!"Replicate face swap API error: {failReasonOf data code}"

/-- `ReplicateService.swapFace` (`replicate.ts` lines 410-502): submits the
face-swap job; a non-ok response or `error` field is tracked (line 457) and
then rethrown as a detailed error (line 469) — that throw is caught by the
function's own catch (lines 485-501), which appends a SECOND usage row (with
a null requestId) before rethrowing.  So the success and transport-exception
paths append one row each, the error-response path two. -/
def swapFace (targetVideoUrl sourceImageUrl : String) (userId : Nat) (f : FetchResult) :
    PollResult :=
  match f with
  | .exn msg =>
    { result := .error msg,
      usage := [trackApiUsage userId "replicate/face-swap" none "error" (some msg)] }
  | .resp ok code data =>
    if !ok || jsTruthy data.error then
      { result := .error (swapFaceErrMsg data code),
        usage := [trackApiUsage userId "replicate/face-swap" (jsIdOrNull data)
          "error" (some (failReasonOf data code)),
        trackApiUsage userId "replicate/face-swap" none
          "error" (some (swapFaceErrMsg data code))] }
    else
      { result := .ok data,
        usage := [trackApiUsage userId "replicate/face-swap" (some data.id) "success" none] }

/-- `ReplicateService.checkFaceSwapStatus` (`replicate.ts` lines 510-560):
polls the swap job and returns the parsed body even when the response is
non-ok or carries an `error` field (it only throws if the transport throws).
Exactly one usage row is appended either way. -/
def checkFaceSwapStatus (predictionId : String) (userId : Nat) (f : FetchResult) : PollResult :=
  match f with
  | .exn msg =>
    { result := .error msg,
      usage := [trackApiUsage userId "replicate/status-check" (some predictionId)
        "error" (some msg)] }
  | .resp ok _ data =>
    { result := .ok data,
      usage := [trackApiUsage userId "replicate/status-check" (some predictionId)
        (if ok then "success" else "error")
        (if ok then none else some (jsOr data.error "Unknown error"))] }

/-- A `videos` row, restricted to the columns the status route reads or
writes (generation parameters such as prompt and title are never consulted by
the polling logic and are elided). -/
structure Video where
  id : Nat
  userId : Nat
  status : String
  videoUrl : Option String
  rawVideoUrl : Option String
  thumbnailUrl : Option String
  errorMessage : Option String
  requestId : Option String
deriving DecidableEq

/-- A `users` row, restricted to the columns the video routes read. -/
structure User where
  id : Nat
  email : Option String
  faceImageUrl : Option String
deriving DecidableEq

/-- A partial update passed to `storage.updateVideo`: an outer `none` means
the field is absent from the update object, `some v` means the column is set
to `v` (which may itself be null). -/
structure VideoPatch where
  status : Option String := none
  videoUrl : Option (Option String) := none
  rawVideoUrl : Option (Option String) := none
  thumbnailUrl : Option (Option String) := none
  errorMessage : Option (Option String) := none
  requestId : Option (Option String) := none
deriving DecidableEq

/-- The empty update object. -/
def emptyPatch : VideoPatch := {}

/-- Apply one partial update to a stored row (drizzle `update().set()`). -/
def applyPatch (v : Video) (p : VideoPatch) : Video :=
  { v with
    status := p.status.getD v.status,
    videoUrl := p.videoUrl.getD v.videoUrl,
    rawVideoUrl := p.rawVideoUrl.getD v.rawVideoUrl,
    thumbnailUrl := p.thumbnailUrl.getD v.thumbnailUrl,
    errorMessage := p.errorMessage.getD v.errorMessage,
    requestId := p.requestId.getD v.requestId }

/-- Apply a sequence of partial updates in order. -/
def applyPatches (v : Video) (ps : List VideoPatch) : Video :=
  ps.foldl applyPatch v

/-- One external provider call made by the status route. -/
inductive ExtCall where
  | pollGeneration (predictionId : String)
  | submitSwap (targetVideoUrl sourceImageUrl : String)
  | pollSwap (predictionId : String)
deriving DecidableEq

/-- The JSON body of a 200 response from `GET /api/videos/:id`: the stored
row is spread first (stale, read before any update of this request), then
some fields are overridden and decorations added.  `progressTenths` models
the `progress` hints 0.5 / 0.7 / 0.3 in tenths; `errNote` is the `error:`
annotation attached in the catch branch and in the failed branch. -/
structure RouteBody where
  video : Video
  statusOver : Option String := none
  videoUrlOver : Option OutputVal := none
  errorMessageOver : Option String := none
  message : Option String := none
  progressTenths : Option Nat := none
  errNote : Option String := none
deriving DecidableEq

/-- A body that returns the stored row with no overrides. -/
def plainBody (v : Video) : RouteBody := { video := v }

/-- Everything observable about one run of `GET /api/videos/:id`. -/
structure RouteOut where
  httpStatus : Nat
  body : Option RouteBody
  patches : List VideoPatch
  calls : List ExtCall
  emails : List Nat
  usage : List UsageRecord

/-- Oracle for one status-route request: outcomes of the (at most three)
external calls it can make, in the order the code can reach them. -/
structure CheckWorld where
  poll1 : FetchResult
  swapSubmit : FetchResult
  poll2 : FetchResult

/-- JS indexing `output[0]` after an `Array.isArray` test: on an empty array
it yields `undefined` (stringified here), mirroring lines 379-381, 442-444 of
`routes.ts`. -/
def outFirst : OutputVal → String
  | .vstr s => s
  | .varr (h :: _) => h
  | .varr [] => "undefined"
  | .vnull => "undefined"

/-- `user && user.email && updatedVideo` guard before sending the completion
email (the update always returns the row in this model). -/
def emailTargets (user? : Option User) (uid : Nat) : List Nat :=
  match user? with
  | some u => if jsTruthy u.email then [uid] else []
  | none => []

/-- `GET /api/videos/:id` (`routes.ts` lines 352-524).  Terminal rows are
returned unchanged with no external call; otherwise the outstanding job
(`requestId`, which in the swap phase is the swap prediction) is polled with
`checkVideoStatus`; branch order is exactly that of the source: succeeded
with output, then failed, then the swap-phase check on `rawVideoUrl`, then
the still-processing default.  Any thrown error is caught and returned as an
`error:` annotation on the stale row without touching the store. -/
def getVideoStatusRoute (video? : Option Video) (user? : Option User) (w : CheckWorld) :
    RouteOut :=
  match video? with
  | none => { httpStatus := 404, body := none, patches := [], calls := [], emails := [], usage := [] }
  | some video =>
    if video.status == "completed" || video.status == "failed" then
      { httpStatus := 200, body := some (plainBody video), patches := [], calls := [], emails := [], usage := [] }
    else if !(jsTruthy video.requestId) then
      { httpStatus := 200, body := some { plainBody video with message := some "Waiting for generation to start" }, patches := [], calls := [], emails := [], usage := [] }
    else
      let rid := video.requestId.getD ""
      let pr := checkVideoStatus rid video.userId w.poll1
      match pr.result with
      | .error msg =>
        { httpStatus := 200, body := some { plainBody video with errNote := some msg }, patches := [], calls := [.pollGeneration rid], emails := [], usage := pr.usage }
      | .ok st =>
        if st.status == "succeeded" && st.output.truthy then
          let videoUrl := outFirst st.output
          match user? with
          | some user =>
            if jsTruthy user.faceImageUrl then
              let face := user.faceImageUrl.getD ""
              let sw := swapFace videoUrl face video.userId w.swapSubmit
              match sw.result with
              | .error msg =>
                { httpStatus := 200, body := some { plainBody video with errNote := some msg }, patches := [], calls := [.pollGeneration rid, .submitSwap videoUrl face], emails := [], usage := pr.usage ++ sw.usage }
              | .ok swapResp =>
                { httpStatus := 200, body := some { plainBody video with statusOver := some "processing", message := some "Face swap in progress", progressTenths := some 5 }, patches := [{ emptyPatch with rawVideoUrl := some (some videoUrl), requestId := some (some swapResp.id) }], calls := [.pollGeneration rid, .submitSwap videoUrl face], emails := [], usage := pr.usage ++ sw.usage }
            else
              { httpStatus := 200, body := some { plainBody video with statusOver := some "completed", videoUrlOver := some (.vstr videoUrl) }, patches := [{ emptyPatch with status := some "completed", videoUrl := some (some videoUrl) }], calls := [.pollGeneration rid], emails := emailTargets user? video.userId, usage := pr.usage }
          | none =>
            { httpStatus := 200, body := some { plainBody video with statusOver := some "completed", videoUrlOver := some (.vstr videoUrl) }, patches := [{ emptyPatch with status := some "completed", videoUrl := some (some videoUrl) }], calls := [.pollGeneration rid], emails := [], usage := pr.usage }
        else if st.status == "failed" then
          { httpStatus := 200, body := some { plainBody video with statusOver := some "failed", errNote := st.error }, patches := [{ emptyPatch with status := some "failed" }], calls := [.pollGeneration rid], emails := [], usage := pr.usage }
        else if jsTruthy video.rawVideoUrl && st.status != "succeeded" then
          let sw := checkFaceSwapStatus rid video.userId w.poll2
          match sw.result with
          | .error msg =>
            { httpStatus := 200, body := some { plainBody video with errNote := some msg }, patches := [], calls := [.pollGeneration rid, .pollSwap rid], emails := [], usage := pr.usage ++ sw.usage }
          | .ok s2 =>
            if s2.status == "succeeded" && s2.output.truthy then
              let swapped := outFirst s2.output
              { httpStatus := 200, body := some { plainBody video with statusOver := some "completed", videoUrlOver := some s2.output }, patches := [{ emptyPatch with status := some "completed", videoUrl := some (some swapped), thumbnailUrl := some video.rawVideoUrl }], calls := [.pollGeneration rid, .pollSwap rid], emails := emailTargets user? video.userId, usage := pr.usage ++ sw.usage }
            else if s2.status == "failed" then
              { httpStatus := 200, body := some { plainBody video with statusOver := some "completed", videoUrlOver := video.rawVideoUrl.map OutputVal.vstr, errorMessageOver := some "Face swap failed, showing original video" }, patches := [{ emptyPatch with status := some "completed", videoUrl := some video.rawVideoUrl, errorMessage := some s2.error }], calls := [.pollGeneration rid, .pollSwap rid], emails := emailTargets user? video.userId, usage := pr.usage ++ sw.usage }
            else
              { httpStatus := 200, body := some { plainBody video with statusOver := some "processing", message := some "Face swap in progress", progressTenths := some 7 }, patches := [], calls := [.pollGeneration rid, .pollSwap rid], emails := [], usage := pr.usage ++ sw.usage }
        else
          { httpStatus := 200, body := some { plainBody video with statusOver := some "processing", message := some "Video generation in progress", progressTenths := some 3 }, patches := [], calls := [.pollGeneration rid], emails := [], usage := pr.usage }

/-- The hardcoded development-mode flag of `POST /api/videos`
(`routes.ts` line 297: `const useDevelopmentMode = true;`). -/
def useDevelopmentMode : Bool := true

/-- Oracle for one `POST /api/videos` request: the connection-test outcome,
whether `REPLICATE_API_TOKEN` is set, the value of `Date.now()` at the mock
handle creation, and the world the real generate call would run in. -/
structure CreateWorld where
  connOk : Bool
  tokenSet : Bool
  now : Nat
  generate : GenWorld

/-- One external call made by `POST /api/videos`. -/
inductive CreateCall where
  | connTest
  | generateSubmit (model : String)
deriving DecidableEq

/-- Everything observable about one run of `POST /api/videos` (after zod
validation and user lookup): the HTTP status, the patches applied to the
created `videos` row in order, the external calls made, and the `status`
field of a 200 response body. -/
structure CreateOut where
  httpStatus : Nat
  patches : List VideoPatch
  calls : List CreateCall
  respStatus : Option String

/-- The `videos` row as created by `storage.createVideo` for this request:
the insert schema omits `status`, so the row starts with no meaningful
status; the route immediately patches it to `processing`. -/
def createdVideo (id uid : Nat) : Video :=
  { id := id, userId := uid, status := "", videoUrl := none, rawVideoUrl := none,
    thumbnailUrl := none, errorMessage := none, requestId := none }

/-- `POST /api/videos` (`routes.ts` lines 214-349), from the point the input
has validated.  A missing user is a 404; a user without a (truthy)
`faceImageUrl` is rejected with a 400 before any external call; otherwise the
row is created, patched to `processing`, the Replicate connection is tested
(an external call), the API token presence is checked, and then — because
`useDevelopmentMode` is hardcoded `true` — a synthetic `dev-<Date.now()>`
handle is stored as `requestId` with **no** generate call; the dead
non-development branch is translated faithfully below it.  Any throw inside
the generation block is caught, the row is patched to `failed`, and a 500 is
returned. -/
def postVideoRoute (user? : Option User) (prompt : String) (userId : Nat) (w : CreateWorld) :
    CreateOut :=
  match user? with
  | none => { httpStatus := 404, patches := [], calls := [], respStatus := none }
  | some user =>
    if !(jsTruthy user.faceImageUrl) then
      { httpStatus := 400, patches := [], calls := [], respStatus := none }
    else
      let p1 : VideoPatch := { emptyPatch with status := some "processing" }
      if !w.connOk then
        { httpStatus := 500, patches := [p1, { emptyPatch with status := some "failed" }], calls := [.connTest], respStatus := none }
      else if !w.tokenSet then
        { httpStatus := 500, patches := [p1, { emptyPatch with status := some "failed" }], calls := [.connTest], respStatus := none }
      else if useDevelopmentMode then
        { httpStatus := 200, patches := [p1, { emptyPatch with requestId := some (some ("dev-" ++ toString w.now)) }], calls := [.connTest], respStatus := some "processing" }
      else
        let g := generateVideo prompt userId w.generate
        let gcalls := g.submits.map fun e => CreateCall.generateSubmit e.model
        match g.result with
        | .ok d =>
          { httpStatus := 200, patches := [p1, { emptyPatch with requestId := some (some d.id) }], calls := .connTest :: gcalls, respStatus := some "processing" }
        | .error _ =>
          { httpStatus := 500, patches := [p1, { emptyPatch with status := some "failed" }], calls := .connTest :: gcalls, respStatus := none }

/-- The fixed placeholder face URL returned by `extractFace` on every failure
path (`replicate.ts` lines 623, 669, 692, 731). -/
def PLACEHOLDER_FACE_URL : String :=
  "https://replicate.delivery/pbxt/7oFCB2DH1fJtKSZza4upYNH7ZS03lMiAy3fNaP09YWzONUOIA/face.png"

/-- Oracle for one `extractFace` run: the submit outcome and, for each loop
iteration `n = 1, 2, ...`, the outcome of the n-th status fetch. -/
structure ExtractWorld where
  submit : FetchResult
  polls : Nat → FetchResult

/-- How the extraction polling loop ended. -/
inductive ExtractLoopOut where
  | found (d : RResponse)
  | failedJob (d : RResponse)
  | thrown (msg : String)
  | timedOut
deriving DecidableEq

/-- The polling loop of `extractFace` (`replicate.ts` lines 629-674):
`attempt` is incremented at the top of each iteration; the loop breaks on
`succeeded` with truthy output, returns early on `failed`, and otherwise
retries until `maxAttempts = 20` is exhausted.  The loop never inspects
`statusResponse.ok`.  A fetch that throws escapes to the outer catch. -/
def extractLoop (polls : Nat → FetchResult) : Nat → Nat → ExtractLoopOut
  | _, 0 => .timedOut
  | attempt, fuel + 1 =>
    match polls (attempt + 1) with
    | .exn msg => .thrown msg
    | .resp _ _ sd =>
      if sd.status == "succeeded" && sd.output.truthy then .found sd
      else if sd.status == "failed" then .failedJob sd
      else extractLoop polls (attempt + 1) fuel

/-- A poll outcome that keeps the loop going: a parsed response that is
neither a truthy-output success nor a failure. -/
def isPendingPoll : FetchResult → Bool
  | .exn _ => false
  | .resp _ _ sd => !(sd.status == "succeeded" && sd.output.truthy) && sd.status != "failed"

/-- `ReplicateService.extractFace` (`replicate.ts` lines 568-733).  Total by
construction (it returns `String`, never `Except`): the submit failing, the
extraction job failing, the 20-attempt window timing out, and any thrown
exception (including the `undefined[0].length` TypeError on an empty
succeeded output array, modelled by the `.varr []` case) all fall back to the
fixed placeholder URL.  Second component: the usage rows appended — note the
per-iteration polls append none. -/
def extractFace (videoData : String) (userId : Nat) (w : ExtractWorld) :
    String × List UsageRecord :=
  match w.submit with
  | .exn msg =>
    (PLACEHOLDER_FACE_URL,
     [trackApiUsage userId "replicate/face-extraction" none "error" (some msg)])
  | .resp ok code data =>
    if !ok || jsTruthy data.error then
      (PLACEHOLDER_FACE_URL,
       [trackApiUsage userId "replicate/face-extraction" (jsIdOrNull data)
         "error" (some (failReasonOf data code))])
    else
      match extractLoop w.polls 0 20 with
      | .thrown msg =>
        (PLACEHOLDER_FACE_URL,
         [trackApiUsage userId "replicate/face-extraction" none "error" (some msg)])
      | .failedJob sd =>
        (PLACEHOLDER_FACE_URL,
         [trackApiUsage userId "replicate/face-extraction" (some data.id)
           "error" (some (jsOr sd.error "Face extraction failed"))])
      | .timedOut =>
        (PLACEHOLDER_FACE_URL,
         [trackApiUsage userId "replicate/face-extraction" (some data.id)
           "error" (some "Face extraction timed out")])
      | .found sd =>
        match sd.output with
        | .varr [] =>
          (PLACEHOLDER_FACE_URL,
           [trackApiUsage userId "replicate/face-extraction" none "error"
             (some "TypeError: Cannot read properties of undefined")])
        | out =>
          (outFirst out,
           [trackApiUsage userId "replicate/face-extraction" (some data.id) "success" none])

/-- The failure entries the backup loop would accumulate for the models of
`ms`, starting at absolute index `i` (one entry per model, in order). -/
def allFailEntries (w : Nat → FetchResult) : List String → Nat → List String
  | [], _ => []
  | _ :: ms, i => backupFailEntry i (w i) :: allFailEntries w ms (i + 1)

/-! Concrete fixtures used by counterexamples and witnesses. -/

/-- A world in which the primary submit throws a transport exception while
every backup submit would succeed. -/
def cexWorldC1 : GenWorld :=
  { primary := .exn "ECONNRESET",
    backups := fun _ => .resp true 201 ⟨"b1", "starting", .vnull, none⟩ }

/-- A world in which the primary submit throws a transport exception and
every backup submit would fail with a provider-error response. -/
def cexWorldC2 : GenWorld :=
  { primary := .exn "socket hang up",
    backups := fun _ => .resp false 500 ⟨"", "", .vnull, some "backup down"⟩ }

/-- A world in which the primary fails with a provider error, the first
backup submit throws, and the second backup succeeds. -/
def cexWorldC3 : GenWorld :=
  { primary := .resp false 500 ⟨"", "", .vnull, some "boom0"⟩,
    backups := fun i => if i == 0 then .exn "ETIMEDOUT" else .resp true 201 ⟨"b2", "starting", .vnull, none⟩ }

/-- A swap-phase video row: `rawVideoUrl` set, `requestId` holding the swap
prediction id. -/
def cexVideoC6 : Video :=
  { id := 1, userId := 2, status := "processing", videoUrl := none,
    rawVideoUrl := some "https://x/raw.mp4", thumbnailUrl := none,
    errorMessage := none, requestId := some "swap-1" }

/-- Owner of `cexVideoC6`. -/
def cexUserC6 : User :=
  { id := 2, email := some "user@example.com", faceImageUrl := some "https://x/face.png" }

/-- A world in which the outstanding swap job reports `failed` (with a null
error field) on the first poll of the request. -/
def cexWorldC6 : CheckWorld :=
  { poll1 := .resp true 200 ⟨"swap-1", "failed", .vnull, none⟩,
    swapSubmit := .exn "unreached", poll2 := .exn "unreached" }

/-- A swap-phase video row for the C7 counterexample. -/
def cexVideoC7 : Video :=
  { id := 3, userId := 2, status := "processing", videoUrl := none,
    rawVideoUrl := some "https://x/raw.mp4", thumbnailUrl := none,
    errorMessage := none, requestId := some "swap-1" }

/-- Owner of `cexVideoC7`. -/
def cexUserC7 : User :=
  { id := 2, email := some "user@example.com", faceImageUrl := some "https://x/face.png" }

/-- A world in which the outstanding swap job reports `succeeded` (output
ready) on the first poll of the request, and a further swap submit would be
accepted with handle `swap-2`. -/
def cexWorldC7 : CheckWorld :=
  { poll1 := .resp true 200 ⟨"swap-1", "succeeded", .varr ["https://x/swapped.mp4"], none⟩,
    swapSubmit := .resp true 201 ⟨"swap-2", "starting", .vnull, none⟩,
    poll2 := .exn "unreached" }

/-- A user with an extracted face image, eligible to create videos. -/
def cexUserC9 : User :=
  { id := 2, email := none, faceImageUrl := some "https://x/face.png" }

/-- A creation-request world in which the connection test passes, the token
is set, and a real generate call would succeed with handle `real-handle`. -/
def cexWorldC9 : CreateWorld :=
  { connOk := true, tokenSet := true, now := 1234,
    generate := { primary := .resp true 201 ⟨"real-handle", "starting", .vnull, none⟩,
                  backups := fun _ => .exn "unreached" } }

/-- A terminal (completed) video row. -/
def wVideoC5 : Video :=
  { id := 1, userId := 1, status := "completed", videoUrl := some "https://x/v.mp4",
    rawVideoUrl := none, thumbnailUrl := none, errorMessage := none, requestId := some "r1" }

/-- A world in which every external call would throw, so any external call
the route made would be observable. -/
def wWorldStuck : CheckWorld :=
  { poll1 := .exn "boom", swapSubmit := .exn "boom", poll2 := .exn "boom" }

/-- A world in which the primary fails with a provider-error response, the
first backup fails likewise, and the second backup succeeds with handle
`backup2`. -/
def wWorldC1 : GenWorld :=
  { primary := .resp false 500 ⟨"", "", .vnull, some "primary down"⟩,
    backups := fun i => if i == 0 then .resp false 404 ⟨"", "", .vnull, some "model not found"⟩ else .resp true 201 ⟨"backup2", "starting", .vnull, none⟩ }

/-- A world in which the primary and every backup fail with provider-error
responses carrying reasons `E0` .. `E4`. -/
def wWorldC2 : GenWorld :=
  { primary := .resp false 500 ⟨"", "", .vnull, some "E0"⟩,
    backups := fun i => .resp false 500 ⟨"", "", .vnull, some (s!"E{i + 1}")⟩ }

/-- A world in which the primary and every backup fail with provider-error
responses, so every backup payload shape is exercised. -/
def wWorldC4 : GenWorld :=
  { primary := .resp false 500 ⟨"", "", .vnull, some "p down"⟩,
    backups := fun _ => .resp false 500 ⟨"", "", .vnull, some "b down"⟩ }

/-- A swap-phase video row used by the C6 witness. -/
def wVideoC6 : Video :=
  { id := 4, userId := 2, status := "processing", videoUrl := none,
    rawVideoUrl := some "https://x/raw.mp4", thumbnailUrl := none,
    errorMessage := none, requestId := some "swap-9" }

/-- Owner of `wVideoC6`, with an email address. -/
def wUserC6 : User :=
  { id := 2, email := some "user@example.com", faceImageUrl := some "https://x/f.png" }

/-- A world in which the first poll of the swap job still reports
`processing` and the inner face-swap poll then reports `failed`. -/
def wWorldC6 : CheckWorld :=
  { poll1 := .resp true 200 ⟨"swap-9", "processing", .vnull, none⟩,
    swapSubmit := .exn "unreached",
    poll2 := .resp true 200 ⟨"swap-9", "failed", .vnull, some "swap exploded"⟩ }

/-- A swap-phase video row used by the C7 witness. -/
def wVideoC7 : Video :=
  { id := 5, userId := 2, status := "processing", videoUrl := none,
    rawVideoUrl := some "https://x/raw.mp4", thumbnailUrl := none,
    errorMessage := none, requestId := some "swap-9" }

/-- Owner of `wVideoC7`, with an email address. -/
def wUserC7 : User :=
  { id := 2, email := some "user@example.com", faceImageUrl := some "https://x/f.png" }

/-- A world in which the first poll of the swap job still reports
`processing` and the inner face-swap poll then reports `succeeded`. -/
def wWorldC7 : CheckWorld :=
  { poll1 := .resp true 200 ⟨"swap-9", "processing", .vnull, none⟩,
    swapSubmit := .exn "unreached",
    poll2 := .resp true 200 ⟨"swap-9", "succeeded", .varr ["https://x/swapped.mp4"], none⟩ }

/-- A non-terminal video row with an outstanding job, for the C8 witness. -/
def wVideoC8 : Video :=
  { id := 6, userId := 3, status := "processing", videoUrl := none,
    rawVideoUrl := none, thumbnailUrl := none, errorMessage := none,
    requestId := some "r-8" }

/-- An extraction world whose submit succeeds and whose first poll reports a
failed extraction job. -/
def wWorldC10 : ExtractWorld :=
  { submit := .resp true 201 ⟨"e1", "starting", .vnull, none⟩,
    polls := fun _ => .resp true 200 ⟨"e1", "failed", .vnull, some "no face"⟩ }

/-- Claim C5: for every Video whose status is already `completed` or
`failed`, `GET /api/videos/:id` returns the stored record unchanged, issues
no external provider call, and performs no store update. -/
theorem video_status_terminal_idempotent (video : Video) (user? : Option User)
    (w : CheckWorld) (h : video.status = "completed" ∨ video.status = "failed") :
    getVideoStatusRoute (some video) user? w
      = { httpStatus := 200, body := some (plainBody video), patches := [],
          calls := [], emails := [], usage := [] } := by
  rcases h with h | h <;> simp [getVideoStatusRoute, h]

/-- Witness for `video_status_terminal_idempotent` at a concrete completed
row and a world in which any external call would throw. -/
theorem video_status_terminal_idempotent_witness :
    getVideoStatusRoute (some wVideoC5) none wWorldStuck
      = { httpStatus := 200, body := some (plainBody wVideoC5), patches := [],
          calls := [], emails := [], usage := [] } :=
  video_status_terminal_idempotent wVideoC5 none wWorldStuck (Or.inl rfl)

/-- Claim C1 counterexample: a primary submit that fails by throwing a
transport exception is rethrown without trying any backup — only one submit
call happens and the result is not the (would-be successful) first backup's
handle, contradicting the claim for this failure mode. -/
theorem generateVideo_primary_exception_skips_backups_cex :
    isFetchSuccess (cexWorldC1.backups 0) = true ∧
    (generateVideo "p" 1 cexWorldC1).submits.length = 1 ∧
    (generateVideo "p" 1 cexWorldC1).result = .error "ECONNRESET" :=
  ⟨rfl, rfl, rfl⟩

/-- Claim C2 counterexample: the primary submit fails (by throwing) and all
four backup models would fail too, yet the raised error is the bare
transport exception — a single reason, not an aggregated message with all
N+1 failure reasons in attempt order — and no backup is even attempted. -/
theorem generateVideo_primary_exception_single_reason_cex :
    isFetchSuccess (cexWorldC2.backups 0) = false ∧
    isFetchSuccess (cexWorldC2.backups 1) = false ∧
    isFetchSuccess (cexWorldC2.backups 2) = false ∧
    isFetchSuccess (cexWorldC2.backups 3) = false ∧
    (generateVideo "p" 1 cexWorldC2).result = .error "socket hang up" ∧
    (generateVideo "p" 1 cexWorldC2).submits.length = 1 :=
  ⟨rfl, rfl, rfl, rfl, rfl, rfl⟩

/-- Claim C3 counterexample: three submit calls are attempted (primary,
backup 1 which throws, backup 2 which succeeds) but only two usage records
are appended — the throwing backup call appends none. -/
theorem generateVideo_backup_exception_usage_cex :
    (generateVideo "p" 7 cexWorldC3).submits.length = 3 ∧
    (generateVideo "p" 7 cexWorldC3).usage.length = 2 :=
  ⟨rfl, rfl⟩

/-- Claim C6 counterexample: a swap-phase video (rawVideoUrl set) whose swap
job reports `failed` on the first poll of the request is persisted as
status=`failed` with no videoUrl — not the claimed degraded success. -/
theorem swap_failed_first_poll_marks_failed_cex :
    (applyPatches cexVideoC6 (getVideoStatusRoute (some cexVideoC6) (some cexUserC6) cexWorldC6).patches).status = "failed" ∧
    (applyPatches cexVideoC6 (getVideoStatusRoute (some cexVideoC6) (some cexUserC6) cexWorldC6).patches).videoUrl = none ∧
    (getVideoStatusRoute (some cexVideoC6) (some cexUserC6) cexWorldC6).calls = [.pollGeneration "swap-1"] :=
  ⟨rfl, rfl, rfl⟩

/-- Claim C7 counterexample: a swap-phase video whose swap job reports
`succeeded` on the first poll re-enters the generation-success branch and
starts ANOTHER face-swap external job; the row stays `processing` with
`requestId` replaced by the new swap handle instead of completing. -/
theorem swap_succeeded_first_poll_restarts_swap_cex :
    (getVideoStatusRoute (some cexVideoC7) (some cexUserC7) cexWorldC7).calls
      = [.pollGeneration "swap-1", .submitSwap "https://x/swapped.mp4" "https://x/face.png"] ∧
    (applyPatches cexVideoC7 (getVideoStatusRoute (some cexVideoC7) (some cexUserC7) cexWorldC7).patches).status = "processing" ∧
    (applyPatches cexVideoC7 (getVideoStatusRoute (some cexVideoC7) (some cexUserC7) cexWorldC7).patches).requestId = some "swap-2" ∧
    (applyPatches cexVideoC7 (getVideoStatusRoute (some cexVideoC7) (some cexUserC7) cexWorldC7).patches).videoUrl = none :=
  ⟨rfl, rfl, rfl, rfl⟩

/-- Claim C9 counterexample: with the hardcoded development-mode flag, an
accepted creation request makes no external generate call (only the
connection test) and stores a synthetic `dev-<timestamp>` requestId, even
though a real generate call would have returned handle `real-handle`. -/
theorem create_video_dev_mode_no_external_call_cex :
    (postVideoRoute (some cexUserC9) "a prompt" 2 cexWorldC9).httpStatus = 200 ∧
    (postVideoRoute (some cexUserC9) "a prompt" 2 cexWorldC9).calls = [.connTest] ∧
    (applyPatches (createdVideo 10 2) (postVideoRoute (some cexUserC9) "a prompt" 2 cexWorldC9).patches).status = "processing" ∧
    (applyPatches (createdVideo 10 2) (postVideoRoute (some cexUserC9) "a prompt" 2 cexWorldC9).patches).requestId = some "dev-1234" ∧
    (generateVideo "a prompt" 2 cexWorldC9.generate).result = .ok ⟨"real-handle", "starting", .vnull, none⟩ :=
  ⟨rfl, rfl, rfl, rfl, rfl⟩


/-- Helper: a parsed response that the fallback loop does not count as a
success refutes the loop's success condition. -/
theorem isFetchSuccess_resp_neg {ok : Bool} {c : Nat} {d : RResponse}
    (h : isFetchSuccess (.resp ok c d) = false) :
    ¬(ok = true ∧ jsTruthy d.error = false) := by
  rintro ⟨a, b⟩
  subst a
  simp [isFetchSuccess, b] at h

/-- Helper: when every remaining backup fails, the loop attempts each model
of `ms` in order (with its substring-dispatched payload) and throws the
aggregated error whose entries extend `errs` in attempt order. -/
theorem tryBackups_all_fail (p : String) (uid : Nat) (w : Nat → FetchResult) :
    ∀ (ms : List String) (i : Nat) (errs : List String),
      (∀ j, j < ms.length → isFetchSuccess (w (i + j)) = false) →
      (tryBackups p uid w ms i errs).result
          = .error ("All video generation models failed: "
              ++ String.intercalate ", " (errs ++ allFailEntries w ms i)) ∧
      (tryBackups p uid w ms i errs).submits.map SubmitEvent.model = ms ∧
      (tryBackups p uid w ms i errs).submits.map SubmitEvent.input
          = ms.map (fun m => backupInput m p) := by
  intro ms
  induction ms with
  | nil =>
    intro i errs hf
    simp [tryBackups, allFailEntries]
  | cons m ms ih =>
    intro i errs hf
    have hf0 : isFetchSuccess (w i) = false := by
      simpa using hf 0 (by simp only [List.length_cons]; omega)
    have hf' : ∀ j, j < ms.length → isFetchSuccess (w (i + 1 + j)) = false := by
      intro j hj
      have h := hf (j + 1) (by simp only [List.length_cons]; omega)
      rw [show i + (j + 1) = i + 1 + j by omega] at h
      exact h
    cases hw : w i with
    | exn msg =>
      have IH := ih (i + 1) (errs ++ [backupFailEntry i (.exn msg)]) hf'
      refine ⟨?_, ?_, ?_⟩ <;>
        simp [tryBackups, hw, allFailEntries, IH.1, IH.2.1, IH.2.2,
          SubmitEvent.model, SubmitEvent.input, List.append_assoc]
    | resp ok0 c0 d0 =>
      rw [hw] at hf0
      have hneg := isFetchSuccess_resp_neg hf0
      have IH := ih (i + 1) (errs ++ [backupFailEntry i (.resp ok0 c0 d0)]) hf'
      refine ⟨?_, ?_, ?_⟩ <;>
        simp [tryBackups, hw, hneg, allFailEntries, IH.1, IH.2.1, IH.2.2,
          SubmitEvent.model, SubmitEvent.input, List.append_assoc]

/-- Helper: if the first `k` backups of the remaining list fail and backup
`k` succeeds, the loop stops there, returns that response, and has attempted
exactly `k + 1` submits in list order. -/
theorem tryBackups_success_at (p : String) (uid : Nat) (w : Nat → FetchResult) :
    ∀ (ms : List String) (i k : Nat) (errs : List String) (bcode : Nat) (bdata : RResponse),
      k < ms.length →
      (∀ j, j < k → isFetchSuccess (w (i + j)) = false) →
      w (i + k) = .resp true bcode bdata →
      jsTruthy bdata.error = false →
      (tryBackups p uid w ms i errs).result = .ok bdata ∧
      (tryBackups p uid w ms i errs).submits.map SubmitEvent.model = ms.take (k + 1) ∧
      (tryBackups p uid w ms i errs).submits.map SubmitEvent.input
        = (ms.take (k + 1)).map (fun m => backupInput m p) ∧
      (tryBackups p uid w ms i errs).submits.length = k + 1 := by
  intro ms
  induction ms with
  | nil =>
    intro i k errs bcode bdata hk
    simp at hk
  | cons m ms ih =>
    intro i k errs bcode bdata hk hprev hsucc herr
    cases k with
    | zero =>
      have hw : w i = .resp true bcode bdata := by simpa using hsucc
      simp [tryBackups, hw, herr, SubmitEvent.model, SubmitEvent.input]
    | succ k' =>
      have hf0 : isFetchSuccess (w i) = false := by simpa using hprev 0 (by omega)
      have hprev' : ∀ j, j < k' → isFetchSuccess (w (i + 1 + j)) = false := by
        intro j hj
        have h := hprev (j + 1) (by omega)
        rw [show i + (j + 1) = i + 1 + j by omega] at h
        exact h
      have hsucc' : w (i + 1 + k') = .resp true bcode bdata := by
        rw [show i + 1 + k' = i + (k' + 1) by omega]
        exact hsucc
      have hk' : k' < ms.length := by simpa using hk
      cases hw : w i with
      | exn msg =>
        have IH := ih (i + 1) k' (errs ++ [backupFailEntry i (.exn msg)]) bcode bdata hk'
          hprev' hsucc' herr
        refine ⟨?_, ?_, ?_, ?_⟩ <;>
          simp [tryBackups, hw, IH.1, IH.2.1, IH.2.2.1, IH.2.2.2,
            SubmitEvent.model, SubmitEvent.input, List.take_succ_cons]
      | resp ok0 c0 d0 =>
        rw [hw] at hf0
        have hneg := isFetchSuccess_resp_neg hf0
        have IH := ih (i + 1) k' (errs ++ [backupFailEntry i (.resp ok0 c0 d0)]) bcode bdata hk'
          hprev' hsucc' herr
        refine ⟨?_, ?_, ?_, ?_⟩ <;>
          simp [tryBackups, hw, hneg, IH.1, IH.2.1, IH.2.2.1, IH.2.2.2,
            SubmitEvent.model, SubmitEvent.input, List.take_succ_cons]

/-- Claim C1 (amended): when the primary submit returns an unsuccessful
provider response (non-ok HTTP status or an error field), `generateVideo`
tries the backups strictly in `BACKUP_VIDEO_MODELS` order; with backup `k`
(0-based here) the first to succeed, it returns that backup's response,
makes exactly `1 + (k + 1)` submits, in order, with the dispatched payloads.
(The counterexample shows a primary submit that fails by *throwing* skips the
backups instead.) -/
theorem generateVideo_fallback_first_success
    (prompt : String) (uid : Nat) (w : GenWorld)
    (pok : Bool) (pcode : Nat) (pdata : RResponse)
    (hp : w.primary = .resp pok pcode pdata)
    (hfail : isFetchSuccess w.primary = false)
    (k : Nat) (hk : k < 4)
    (hprev : ∀ j, j < k → isFetchSuccess (w.backups j) = false)
    (bcode : Nat) (bdata : RResponse)
    (hbk : w.backups k = .resp true bcode bdata)
    (herr : jsTruthy bdata.error = false) :
    (generateVideo prompt uid w).result = .ok bdata ∧
    (generateVideo prompt uid w).submits.length = k + 2 ∧
    (generateVideo prompt uid w).submits.map SubmitEvent.model
      = VIDEO_MODEL :: BACKUP_VIDEO_MODELS.take (k + 1) ∧
    (generateVideo prompt uid w).submits.map SubmitEvent.input
      = primaryInput prompt :: (BACKUP_VIDEO_MODELS.take (k + 1)).map (fun m => backupInput m prompt) := by
  rw [hp] at hfail
  have hneg := isFetchSuccess_resp_neg hfail
  have H := tryBackups_success_at prompt uid w.backups BACKUP_VIDEO_MODELS 0 k
    [s!"Primary model error: {failReasonOf pdata pcode}"] bcode bdata
    (by simp only [BACKUP_VIDEO_MODELS, List.length_cons, List.length_nil]; omega)
    (by intro j hj; simpa using hprev j hj)
    (by simpa using hbk) herr
  refine ⟨?_, ?_, ?_, ?_⟩ <;>
    simp [generateVideo, hp, hneg, H.1, H.2.1, H.2.2.1, H.2.2.2,
      SubmitEvent.model, SubmitEvent.input]

/-- Witness for `generateVideo_fallback_first_success`: primary and backup 1
fail with provider errors, backup 2 succeeds with handle `backup2`; three
submits happen and backup 2's response is returned. -/
theorem generateVideo_fallback_first_success_witness :
    (generateVideo "p" 3 wWorldC1).result = .ok ⟨"backup2", "starting", .vnull, none⟩ ∧
    (generateVideo "p" 3 wWorldC1).submits.length = 3 ∧
    (generateVideo "p" 3 wWorldC1).submits.map SubmitEvent.model
      = VIDEO_MODEL :: BACKUP_VIDEO_MODELS.take 2 ∧
    (generateVideo "p" 3 wWorldC1).submits.map SubmitEvent.input
      = primaryInput "p" :: (BACKUP_VIDEO_MODELS.take 2).map (fun m => backupInput m "p") :=
  generateVideo_fallback_first_success "p" 3 wWorldC1 false 500 ⟨"", "", .vnull, some "primary down"⟩
    rfl rfl 1 (by omega)
    (by
      intro j hj
      cases j with
      | zero => rfl
      | succ n => exact absurd hj (by omega))
    201 ⟨"backup2", "starting", .vnull, none⟩ rfl rfl

/-- Claim C2 (amended): when the primary submit returns an unsuccessful
provider response and all four backups also fail, `generateVideo` throws a
single aggregated error listing all five failure reasons in attempt order,
primary first.  (The counterexample shows a primary submit that fails by
*throwing* rethrows the bare exception instead.) -/
theorem generateVideo_all_fail_aggregated_message
    (prompt : String) (uid : Nat) (w : GenWorld)
    (pok : Bool) (pcode : Nat) (pdata : RResponse)
    (hp : w.primary = .resp pok pcode pdata)
    (hfail : isFetchSuccess w.primary = false)
    (hb : ∀ i, i < 4 → isFetchSuccess (w.backups i) = false) :
    (generateVideo prompt uid w).result
      = .error ("All video generation models failed: " ++ String.intercalate ", "
          [s!"Primary model error: {failReasonOf pdata pcode}",
           backupFailEntry 0 (w.backups 0), backupFailEntry 1 (w.backups 1),
           backupFailEntry 2 (w.backups 2), backupFailEntry 3 (w.backups 3)]) := by
  rw [hp] at hfail
  have hneg := isFetchSuccess_resp_neg hfail
  have H := (tryBackups_all_fail prompt uid w.backups BACKUP_VIDEO_MODELS 0
    [s!"Primary model error: {failReasonOf pdata pcode}"]
    (by
      intro j hj
      simpa using hb j (by
        simpa [BACKUP_VIDEO_MODELS] using hj))).1
  cases hr : (tryBackups prompt uid w.backups BACKUP_VIDEO_MODELS 0
      [s!"Primary model error: {failReasonOf pdata pcode}"]).result with
  | ok d =>
    rw [hr] at H
    simp at H
  | error m =>
    rw [hr] at H
    simp only [Except.error.injEq] at H
    have hcond : (pok && !jsTruthy pdata.error) = false := hfail
    simp only [generateVideo, hp]
    simp only [hcond, Bool.false_eq_true, if_false]
    rw [hr]
    simp [H, allFailEntries, BACKUP_VIDEO_MODELS]

/-- Witness for `generateVideo_all_fail_aggregated_message`: with concrete
reasons E0..E4 the aggregated message lists all five in attempt order. -/
theorem generateVideo_all_fail_aggregated_message_witness :
    (generateVideo "p" 1 wWorldC2).result
      = .error "All video generation models failed: Primary model error: E0, Backup model 1 error: E1, Backup model 2 error: E2, Backup model 3 error: E3, Backup model 4 error: E4" :=
  generateVideo_all_fail_aggregated_message "p" 1 wWorldC2 false 500 ⟨"", "", .vnull, some "E0"⟩
    rfl rfl (fun i _ => rfl)

/-- Helper: within the backup loop, the number of usage rows appended equals
the number of attempted submits whose response was parsed (a throwing backup
submit appends no row). -/
theorem tryBackups_usage_eq_parsed (p : String) (uid : Nat) (w : Nat → FetchResult) :
    ∀ (ms : List String) (i : Nat) (errs : List String),
      (tryBackups p uid w ms i errs).usage.length
        = ((tryBackups p uid w ms i errs).submits.filter SubmitEvent.parsed).length := by
  intro ms
  induction ms with
  | nil => intro i errs; simp [tryBackups]
  | cons m ms ih =>
    intro i errs
    cases hw : w i with
    | exn msg => simp [tryBackups, hw, SubmitEvent.parsed, ih]
    | resp ok0 c0 d0 =>
      by_cases hs : ok0 = true ∧ jsTruthy d0.error = false
      · obtain ⟨a, b⟩ := hs
        subst a
        simp [tryBackups, hw, b, SubmitEvent.parsed]
      · simp [tryBackups, hw, hs, SubmitEvent.parsed, ih]

/-- Claim C3 (amended): `checkFaceSwapStatus` appends exactly one usage row
per call.  `checkVideoStatus` and `swapFace` append exactly one row when the
call succeeds or its transport throws, but TWO rows when the provider
response is non-ok or carries an error field — the inner error track plus
the function's own catch re-tracking the rethrown detailed error.  In
`generateVideo` the number of appended rows equals the number of submits
whose response was parsed, plus one extra row appended by the outer handler
exactly when the call throws — so a backup submit whose transport throws
appends no row and an overall failure appends one aggregate row beyond the
per-call rows.  In no case is the row count one-per-attempted-call. -/
theorem usage_record_count_formula :
    (∀ (prompt : String) (uid : Nat) (w : GenWorld),
      (generateVideo prompt uid w).usage.length
        = ((generateVideo prompt uid w).submits.filter SubmitEvent.parsed).length
          + (match (generateVideo prompt uid w).result with | .error _ => 1 | .ok _ => 0)) ∧
    (∀ (pid : String) (uid : Nat) (f : FetchResult),
      (checkVideoStatus pid uid f).usage.length
        = (match f with | .resp ok _ d => if (!ok || jsTruthy d.error) = true then 2 else 1 | .exn _ => 1)) ∧
    (∀ (t s : String) (uid : Nat) (f : FetchResult),
      (swapFace t s uid f).usage.length
        = (match f with | .resp ok _ d => if (!ok || jsTruthy d.error) = true then 2 else 1 | .exn _ => 1)) ∧
    (∀ (pid : String) (uid : Nat) (f : FetchResult),
      (checkFaceSwapStatus pid uid f).usage.length = 1) := by
  refine ⟨?_, ?_, ?_, ?_⟩
  · intro prompt uid w
    cases hp : w.primary with
    | exn msg => simp [generateVideo, hp, SubmitEvent.parsed]
    | resp ok0 c0 d0 =>
      by_cases hs : ok0 = true ∧ jsTruthy d0.error = false
      · obtain ⟨a, b⟩ := hs
        subst a
        simp [generateVideo, hp, b, SubmitEvent.parsed]
      · cases hr : (tryBackups prompt uid w.backups BACKUP_VIDEO_MODELS 0
            [s!"Primary model error: {failReasonOf d0 c0}"]).result with
        | ok d =>
          simp [generateVideo, hp, hs, hr, SubmitEvent.parsed,
            tryBackups_usage_eq_parsed]
        | error m =>
          simp [generateVideo, hp, hs, hr, SubmitEvent.parsed,
            tryBackups_usage_eq_parsed]
  · intro pid uid f
    cases f with
    | exn m => rfl
    | resp ok c d =>
      by_cases hcond : (!ok || jsTruthy d.error) = true
      · simp [checkVideoStatus, hcond]
      · rw [Bool.not_eq_true] at hcond
        simp [checkVideoStatus, hcond]
  · intro t s uid f
    cases f with
    | exn m => rfl
    | resp ok c d =>
      by_cases hcond : (!ok || jsTruthy d.error) = true
      · simp [swapFace, hcond]
      · rw [Bool.not_eq_true] at hcond
        simp [swapFace, hcond]
  · intro pid uid f
    cases f <;> rfl

/-- Claim C4: for every backup model attempted by the fallback chain the
payload is dispatched by substring match — identifiers containing
`zeroscope` get the minimal prompt-only payload, otherwise ones containing
`stability-ai` get the vendor-specific fields, and everything else gets the
generic default; on a run attempting all four configured backups the traced
payloads are exactly [default, stability, minimal, minimal]. -/
theorem backup_payload_substring_dispatch :
    (∀ m p : String, strIncludes m "zeroscope" = true →
      backupInput m p = { prompt := p }) ∧
    (∀ m p : String, strIncludes m "zeroscope" = false →
      strIncludes m "stability-ai" = true →
      backupInput m p = { prompt := p, video_length := some "14_frames_with_svd", sizing_strategy := some "maintain_aspect_ratio", frames_per_second := some 7 }) ∧
    (∀ m p : String, strIncludes m "zeroscope" = false →
      strIncludes m "stability-ai" = false →
      backupInput m p = { prompt := p, width := some 512, height := some 512, num_frames := some 24, fps := some 8 }) ∧
    (∀ (p : String) (uid : Nat) (w : GenWorld) (pok : Bool) (pcode : Nat) (pdata : RResponse),
      w.primary = .resp pok pcode pdata →
      isFetchSuccess w.primary = false →
      (∀ i, i < 4 → isFetchSuccess (w.backups i) = false) →
      (generateVideo p uid w).submits.map SubmitEvent.input
        = [primaryInput p,
           { prompt := p, width := some 512, height := some 512, num_frames := some 24, fps := some 8 },
           { prompt := p, video_length := some "14_frames_with_svd", sizing_strategy := some "maintain_aspect_ratio", frames_per_second := some 7 },
           { prompt := p },
           { prompt := p }]) := by
  have e1 : ∀ p : String, backupInput "cjwbw/damo-text-to-video:1e205ea73084bd1f48cf12292218629e3b9fd9e63fc45f7c34a0267a4a8c175e" p = { prompt := p, width := some 512, height := some 512, num_frames := some 24, fps := some 8 } := fun p => rfl
  have e2 : ∀ p : String, backupInput "stability-ai/stable-video-diffusion:cf91c35338de27f2a2e4e00358c1e6acca289577de01f59ca9fed2c556c28c60" p = { prompt := p, video_length := some "14_frames_with_svd", sizing_strategy := some "maintain_aspect_ratio", frames_per_second := some 7 } := fun p => rfl
  have e3 : ∀ p : String, backupInput "anotherjesse/zeroscope-v2-xl:9f747673945c62801b13b4a6f2fa26925f92c4193684f23e1dc6d7fa88710286" p = { prompt := p } := fun p => rfl
  have e4 : ∀ p : String, backupInput "cerspense/zeroscope_v2_576w:63da0069206d88e3808a349a1cd9a07d39123e0e8c83566abbad0ddb8580e9c5" p = { prompt := p } := fun p => rfl
  refine ⟨?_, ?_, ?_, ?_⟩
  · intro m p h
    simp [backupInput, h]
  · intro m p h1 h2
    simp [backupInput, h1, h2]
  · intro m p h1 h2
    simp [backupInput, h1, h2]
  · intro p uid w pok pcode pdata hp hfail hb
    rw [hp] at hfail
    have hneg := isFetchSuccess_resp_neg hfail
    have H := (tryBackups_all_fail p uid w.backups BACKUP_VIDEO_MODELS 0
      [s!"Primary model error: {failReasonOf pdata pcode}"]
      (by
        intro j hj
        simpa using hb j (by
          simpa [BACKUP_VIDEO_MODELS] using hj))).2.2
    cases hr : (tryBackups p uid w.backups BACKUP_VIDEO_MODELS 0
        [s!"Primary model error: {failReasonOf pdata pcode}"]).result with
    | ok d =>
      have hcond : (pok && !jsTruthy pdata.error) = false := hfail
      simp only [generateVideo, hp]
      simp only [hcond, Bool.false_eq_true, if_false]
      rw [hr]
      simp [H, SubmitEvent.input]
      simp [BACKUP_VIDEO_MODELS, e1, e2, e3, e4]
    | error m =>
      have hcond : (pok && !jsTruthy pdata.error) = false := hfail
      simp only [generateVideo, hp]
      simp only [hcond, Bool.false_eq_true, if_false]
      rw [hr]
      simp [H, SubmitEvent.input]
      simp [BACKUP_VIDEO_MODELS, e1, e2, e3, e4]

/-- Witness for `backup_payload_substring_dispatch`: the zeroscope model gets
the minimal payload, and a run through all four backups produces exactly the
four dispatched shapes. -/
theorem backup_payload_substring_dispatch_witness :
    backupInput "anotherjesse/zeroscope-v2-xl:9f747673945c62801b13b4a6f2fa26925f92c4193684f23e1dc6d7fa88710286" "sunset" = { prompt := "sunset" } ∧
    (generateVideo "sunset" 1 wWorldC4).submits.map SubmitEvent.input
      = [primaryInput "sunset",
         { prompt := "sunset", width := some 512, height := some 512, num_frames := some 24, fps := some 8 },
         { prompt := "sunset", video_length := some "14_frames_with_svd", sizing_strategy := some "maintain_aspect_ratio", frames_per_second := some 7 },
         { prompt := "sunset" },
         { prompt := "sunset" }] :=
  ⟨backup_payload_substring_dispatch.1 _ "sunset" rfl,
   backup_payload_substring_dispatch.2.2.2 "sunset" 1 wWorldC4 false 500 ⟨"", "", .vnull, some "p down"⟩
     rfl rfl (fun i _ => rfl)⟩

/-- Claim C6 (amended): for a swap-phase video, when the request's first
upstream poll returns a non-terminal status and the inner face-swap poll
then reports `failed`, the route persists status=`completed` (not failed)
with `videoUrl` equal to the pre-swap `rawVideoUrl` and `errorMessage` set to
the swap job's error, responds with an errorMessage noting the fallback, and
starts no new job.  (The counterexample shows a swap failure reported by the
*first* poll instead marks the video `failed`.) -/
theorem swap_failed_inner_poll_degraded_success
    (v : Video) (u : User) (w : CheckWorld)
    (hs1 : v.status ≠ "completed") (hs2 : v.status ≠ "failed")
    (rid : String) (hrid : v.requestId = some rid) (hridne : rid ≠ "")
    (raw : String) (hraw : v.rawVideoUrl = some raw) (hrawne : raw ≠ "")
    (c1 : Nat) (d1 : RResponse)
    (hp1 : w.poll1 = .resp true c1 d1)
    (herr1 : jsTruthy d1.error = false)
    (hns : d1.status ≠ "succeeded") (hnf : d1.status ≠ "failed")
    (ok2 : Bool) (c2 : Nat) (d2 : RResponse)
    (hp2 : w.poll2 = .resp ok2 c2 d2)
    (hfail2 : d2.status = "failed") :
    applyPatches v (getVideoStatusRoute (some v) (some u) w).patches
      = { v with status := "completed", videoUrl := v.rawVideoUrl, errorMessage := d2.error } ∧
    (getVideoStatusRoute (some v) (some u) w).httpStatus = 200 ∧
    (getVideoStatusRoute (some v) (some u) w).body
      = some { plainBody v with statusOver := some "completed", videoUrlOver := v.rawVideoUrl.map OutputVal.vstr, errorMessageOver := some "Face swap failed, showing original video" } ∧
    (getVideoStatusRoute (some v) (some u) w).emails
      = (if jsTruthy u.email then [v.userId] else []) ∧
    (getVideoStatusRoute (some v) (some u) w).calls
      = [.pollGeneration rid, .pollSwap rid] := by
  have sf1 : (("failed" : String) == "succeeded") = false := rfl
  have sf2 : (("failed" : String) == "failed") = true := rfl
  have htr1 : jsTruthy (some rid) = true := by simp [jsTruthy, hridne]
  have htr2 : jsTruthy (some raw) = true := by simp [jsTruthy, hrawne]
  refine ⟨?_, ?_, ?_, ?_, ?_⟩ <;>
    simp [getVideoStatusRoute, checkVideoStatus, checkFaceSwapStatus, hs1, hs2,
      hrid, hraw, htr1, htr2, herr1, hns, hnf, hp1, hp2, hfail2,
      sf1, sf2, applyPatches, applyPatch, emptyPatch, plainBody, emailTargets,
      collapseOutput]

/-- Witness for `swap_failed_inner_poll_degraded_success` at a concrete
swap-phase row whose inner poll reports a failed swap. -/
theorem swap_failed_inner_poll_degraded_success_witness :
    applyPatches wVideoC6 (getVideoStatusRoute (some wVideoC6) (some wUserC6) wWorldC6).patches
      = { wVideoC6 with status := "completed", videoUrl := wVideoC6.rawVideoUrl, errorMessage := some "swap exploded" } ∧
    (getVideoStatusRoute (some wVideoC6) (some wUserC6) wWorldC6).httpStatus = 200 ∧
    (getVideoStatusRoute (some wVideoC6) (some wUserC6) wWorldC6).body
      = some { plainBody wVideoC6 with statusOver := some "completed", videoUrlOver := wVideoC6.rawVideoUrl.map OutputVal.vstr, errorMessageOver := some "Face swap failed, showing original video" } ∧
    (getVideoStatusRoute (some wVideoC6) (some wUserC6) wWorldC6).emails
      = (if jsTruthy wUserC6.email then [wVideoC6.userId] else []) ∧
    (getVideoStatusRoute (some wVideoC6) (some wUserC6) wWorldC6).calls
      = [.pollGeneration "swap-9", .pollSwap "swap-9"] :=
  swap_failed_inner_poll_degraded_success wVideoC6 wUserC6 wWorldC6
    (by decide) (by decide) "swap-9" rfl (by decide)
    "https://x/raw.mp4" rfl (by decide)
    200 ⟨"swap-9", "processing", .vnull, none⟩ rfl rfl (by decide) (by decide)
    true 200 ⟨"swap-9", "failed", .vnull, some "swap exploded"⟩ rfl rfl

/-- Claim C7 (amended): for a swap-phase video, when the request's first
upstream poll returns a non-terminal status and the inner face-swap poll
then reports `succeeded`, the route sets `videoUrl` to the swap output,
status=`completed`, defaults `thumbnailUrl` to `rawVideoUrl`, triggers the
completion email when the owner has one, and starts no further external job.
(The counterexample shows a swap success reported by the *first* poll
instead starts another face swap.) -/
theorem swap_succeeded_inner_poll_completes
    (v : Video) (u : User) (w : CheckWorld)
    (hs1 : v.status ≠ "completed") (hs2 : v.status ≠ "failed")
    (rid : String) (hrid : v.requestId = some rid) (hridne : rid ≠ "")
    (raw : String) (hraw : v.rawVideoUrl = some raw) (hrawne : raw ≠ "")
    (c1 : Nat) (d1 : RResponse)
    (hp1 : w.poll1 = .resp true c1 d1)
    (herr1 : jsTruthy d1.error = false)
    (hns : d1.status ≠ "succeeded") (hnf : d1.status ≠ "failed")
    (ok2 : Bool) (c2 : Nat) (d2 : RResponse)
    (hp2 : w.poll2 = .resp ok2 c2 d2)
    (hsucc2 : d2.status = "succeeded") (hout2 : d2.output.truthy = true) :
    applyPatches v (getVideoStatusRoute (some v) (some u) w).patches
      = { v with status := "completed", videoUrl := some (outFirst d2.output), thumbnailUrl := v.rawVideoUrl } ∧
    (getVideoStatusRoute (some v) (some u) w).httpStatus = 200 ∧
    (getVideoStatusRoute (some v) (some u) w).body
      = some { plainBody v with statusOver := some "completed", videoUrlOver := some d2.output } ∧
    (getVideoStatusRoute (some v) (some u) w).emails
      = (if jsTruthy u.email then [v.userId] else []) ∧
    (getVideoStatusRoute (some v) (some u) w).calls
      = [.pollGeneration rid, .pollSwap rid] := by
  have sf1 : (("succeeded" : String) == "succeeded") = true := rfl
  have htr1 : jsTruthy (some rid) = true := by simp [jsTruthy, hridne]
  have htr2 : jsTruthy (some raw) = true := by simp [jsTruthy, hrawne]
  refine ⟨?_, ?_, ?_, ?_, ?_⟩ <;>
    simp [getVideoStatusRoute, checkVideoStatus, checkFaceSwapStatus, hs1, hs2,
      hrid, hraw, htr1, htr2, herr1, hns, hnf, hp1, hp2, hsucc2,
      hout2, sf1, applyPatches, applyPatch, emptyPatch, plainBody, emailTargets,
      collapseOutput]

/-- Witness for `swap_succeeded_inner_poll_completes` at a concrete
swap-phase row whose inner poll reports a succeeded swap. -/
theorem swap_succeeded_inner_poll_completes_witness :
    applyPatches wVideoC7 (getVideoStatusRoute (some wVideoC7) (some wUserC7) wWorldC7).patches
      = { wVideoC7 with status := "completed", videoUrl := some "https://x/swapped.mp4", thumbnailUrl := wVideoC7.rawVideoUrl } ∧
    (getVideoStatusRoute (some wVideoC7) (some wUserC7) wWorldC7).httpStatus = 200 ∧
    (getVideoStatusRoute (some wVideoC7) (some wUserC7) wWorldC7).body
      = some { plainBody wVideoC7 with statusOver := some "completed", videoUrlOver := some (.varr ["https://x/swapped.mp4"]) } ∧
    (getVideoStatusRoute (some wVideoC7) (some wUserC7) wWorldC7).emails
      = (if jsTruthy wUserC7.email then [wVideoC7.userId] else []) ∧
    (getVideoStatusRoute (some wVideoC7) (some wUserC7) wWorldC7).calls
      = [.pollGeneration "swap-9", .pollSwap "swap-9"] :=
  swap_succeeded_inner_poll_completes wVideoC7 wUserC7 wWorldC7
    (by decide) (by decide) "swap-9" rfl (by decide)
    "https://x/raw.mp4" rfl (by decide)
    200 ⟨"swap-9", "processing", .vnull, none⟩ rfl rfl (by decide) (by decide)
    true 200 ⟨"swap-9", "succeeded", .varr ["https://x/swapped.mp4"], none⟩ rfl rfl rfl

/-- Helper: collapsing a multi-candidate output leaves the status field
unchanged. -/
theorem collapseOutput_status (d : RResponse) : (collapseOutput d).status = d.status := by
  rcases d with ⟨id, st, out, err⟩
  cases out with
  | vstr s => rfl
  | vnull => rfl
  | varr l => cases l <;> rfl

/-- Claim C8: for every non-terminal Video with an outstanding job, any
exception raised while checking its upstream status — a throwing poll, a
poll response carrying an error field (which `checkVideoStatus` converts
into a thrown error), a throwing face-swap submit, or a throwing face-swap
poll — is caught and returned as an `error:` annotation on the otherwise
unchanged record, with no store update. -/
theorem check_exception_annotated_store_untouched
    (v : Video) (user? : Option User) (w : CheckWorld)
    (hs1 : v.status ≠ "completed") (hs2 : v.status ≠ "failed")
    (rid : String) (hrid : v.requestId = some rid) (hridne : rid ≠ "") :
    (∀ m, w.poll1 = .exn m →
      getVideoStatusRoute (some v) user? w
        = { httpStatus := 200, body := some { plainBody v with errNote := some m }, patches := [], calls := [.pollGeneration rid], emails := [], usage := [trackApiUsage v.userId "replicate/status-check" (some rid) "error" (some m)] }) ∧
    (∀ (ok1 : Bool) (c1 : Nat) (d1 : RResponse), w.poll1 = .resp ok1 c1 d1 →
      (!ok1 || jsTruthy d1.error) = true →
      (getVideoStatusRoute (some v) user? w).patches = [] ∧
      (getVideoStatusRoute (some v) user? w).httpStatus = 200 ∧
      (getVideoStatusRoute (some v) user? w).body = some { plainBody v with errNote := some (statusCheckErrMsg d1 c1) }) ∧
    (∀ (c1 : Nat) (d1 : RResponse) (u : User) (m : String),
      w.poll1 = .resp true c1 d1 → jsTruthy d1.error = false →
      d1.status = "succeeded" → (collapseOutput d1).output.truthy = true →
      user? = some u → jsTruthy u.faceImageUrl = true →
      w.swapSubmit = .exn m →
      (getVideoStatusRoute (some v) user? w).patches = [] ∧
      (getVideoStatusRoute (some v) user? w).httpStatus = 200 ∧
      (getVideoStatusRoute (some v) user? w).body = some { plainBody v with errNote := some m }) ∧
    (∀ (c1 : Nat) (d1 : RResponse) (m : String),
      w.poll1 = .resp true c1 d1 → jsTruthy d1.error = false →
      d1.status ≠ "succeeded" → d1.status ≠ "failed" →
      jsTruthy v.rawVideoUrl = true →
      w.poll2 = .exn m →
      (getVideoStatusRoute (some v) user? w).patches = [] ∧
      (getVideoStatusRoute (some v) user? w).httpStatus = 200 ∧
      (getVideoStatusRoute (some v) user? w).body = some { plainBody v with errNote := some m }) := by
  have htr1 : jsTruthy (some rid) = true := by simp [jsTruthy, hridne]
  refine ⟨?_, ?_, ?_, ?_⟩
  · intro m hm
    simp [getVideoStatusRoute, checkVideoStatus, hs1, hs2, hrid, htr1, hm, plainBody]
  · intro ok1 c1 d1 hpoll hbad
    refine ⟨?_, ?_, ?_⟩ <;>
      simp [getVideoStatusRoute, checkVideoStatus, hs1, hs2, hrid, htr1, hpoll, hbad, plainBody]
  · intro c1 d1 u m hpoll herr hsucc htruthy huser hface hswap
    have sfx : (("succeeded" : String) == "succeeded") = true := rfl
    refine ⟨?_, ?_, ?_⟩ <;>
      simp [getVideoStatusRoute, checkVideoStatus, swapFace, hs1, hs2, hrid, htr1,
        hpoll, herr, hsucc, htruthy, huser, hface, hswap, sfx, collapseOutput_status,
        plainBody]
  · intro c1 d1 m hpoll herr hns hnf hrawt hswap2
    refine ⟨?_, ?_, ?_⟩ <;>
      simp [getVideoStatusRoute, checkVideoStatus, checkFaceSwapStatus, hs1, hs2,
        hrid, htr1, hpoll, herr, hns, hnf, hrawt, hswap2, plainBody]

/-- Witness for `check_exception_annotated_store_untouched`: a throwing poll
on a concrete processing row yields the annotated body and no patch. -/
theorem check_exception_annotated_store_untouched_witness :
    getVideoStatusRoute (some wVideoC8) none wWorldStuck
      = { httpStatus := 200, body := some { plainBody wVideoC8 with errNote := some "boom" }, patches := [], calls := [.pollGeneration "r-8"], emails := [], usage := [trackApiUsage wVideoC8.userId "replicate/status-check" (some "r-8") "error" (some "boom")] } :=
  (check_exception_annotated_store_untouched wVideoC8 none wWorldStuck
    (by decide) (by decide) "r-8" rfl (by decide)).1 "boom" rfl

/-- Claim C9 (amended): an accepted creation request (user present with a
truthy faceImageUrl, connection test passing, token set) persists
status=`processing` and then a requestId — both before the response — but,
because of the hardcoded development-mode flag, the requestId is the
synthetic `dev-<Date.now()>` handle and the only external call is the
connection test: no generate call is issued.  (The counterexample exhibits
the missing generate call against a world whose real call would have
returned a different handle.) -/
theorem create_video_processing_requestId_stored
    (u : User) (prompt : String) (uid : Nat) (w : CreateWorld)
    (hface : jsTruthy u.faceImageUrl = true)
    (hconn : w.connOk = true) (htok : w.tokenSet = true) :
    postVideoRoute (some u) prompt uid w
      = { httpStatus := 200,
          patches := [{ emptyPatch with status := some "processing" }, { emptyPatch with requestId := some (some ("dev-" ++ toString w.now)) }],
          calls := [.connTest],
          respStatus := some "processing" } := by
  simp [postVideoRoute, hface, hconn, htok, useDevelopmentMode, emptyPatch]

/-- Witness for `create_video_processing_requestId_stored` at the concrete
creation world with `Date.now() = 1234`. -/
theorem create_video_processing_requestId_stored_witness :
    postVideoRoute (some cexUserC9) "a prompt" 2 cexWorldC9
      = { httpStatus := 200,
          patches := [{ emptyPatch with status := some "processing" }, { emptyPatch with requestId := some (some ("dev-" ++ toString cexWorldC9.now)) }],
          calls := [.connTest],
          respStatus := some "processing" } :=
  create_video_processing_requestId_stored cexUserC9 "a prompt" 2 cexWorldC9 rfl rfl rfl

/-- Helper: the extraction polling loop skips over a prefix of pending
polls. -/
theorem extractLoop_skip (polls : Nat → FetchResult) :
    ∀ (i a fuel : Nat), (∀ j, j < i → isPendingPoll (polls (a + j + 1)) = true) →
      extractLoop polls a (i + fuel) = extractLoop polls (a + i) fuel := by
  intro i
  induction i with
  | zero =>
    intro a fuel h
    simp
  | succ n ih =>
    intro a fuel h
    have h0 : isPendingPoll (polls (a + 1)) = true := by simpa using h 0 (by omega)
    rw [show n + 1 + fuel = (n + fuel) + 1 by omega]
    cases hp : polls (a + 1) with
    | exn m =>
      rw [hp] at h0
      simp [isPendingPoll] at h0
    | resp ok c sd =>
      rw [hp] at h0
      have hA : (sd.status == "succeeded" && sd.output.truthy) = false := by
        by_contra hc
        rw [Bool.not_eq_false] at hc
        simp [isPendingPoll, hc] at h0
      have hB : (sd.status == "failed") = false := by
        by_contra hc
        rw [Bool.not_eq_false] at hc
        simp [isPendingPoll, hc, bne] at h0
      have h' : ∀ j, j < n → isPendingPoll (polls (a + 1 + j + 1)) = true := by
        intro j hj
        have hx := h (j + 1) (by omega)
        rw [show a + (j + 1) + 1 = a + 1 + j + 1 by omega] at hx
        exact hx
      calc extractLoop polls a (n + fuel + 1)
          = extractLoop polls (a + 1) (n + fuel) := by
            simp [extractLoop, hp, hA, hB]
        _ = extractLoop polls (a + 1 + n) fuel := ih (a + 1) fuel h'
        _ = extractLoop polls (a + (n + 1)) fuel := by
            rw [show a + 1 + n = a + (n + 1) by omega]

/-- Claim C10: `extractFace` is total at its interface — it always returns a
URL — and on every failure mode it returns the fixed placeholder: a failed
submit response, a thrown submit, an extraction job that reports `failed`
within the 20-attempt window, a poll whose transport throws, and a window
that times out with all polls pending. -/
theorem extractFace_total_placeholder_on_failure :
    (∀ (vd : String) (uid : Nat) (we : ExtractWorld) (m : String),
      we.submit = .exn m → (extractFace vd uid we).1 = PLACEHOLDER_FACE_URL) ∧
    (∀ (vd : String) (uid : Nat) (we : ExtractWorld) (ok : Bool) (c : Nat) (d : RResponse),
      we.submit = .resp ok c d → (!ok || jsTruthy d.error) = true →
      (extractFace vd uid we).1 = PLACEHOLDER_FACE_URL) ∧
    (∀ (vd : String) (uid : Nat) (we : ExtractWorld) (ok : Bool) (c : Nat) (d : RResponse) (i : Nat),
      we.submit = .resp ok c d → (!ok || jsTruthy d.error) = false →
      i < 20 → (∀ j, j < i → isPendingPoll (we.polls (j + 1)) = true) →
      ((∀ (ok2 : Bool) (c2 : Nat) (sd : RResponse), we.polls (i + 1) = .resp ok2 c2 sd →
          sd.status = "failed" → (extractFace vd uid we).1 = PLACEHOLDER_FACE_URL) ∧
       (∀ m, we.polls (i + 1) = .exn m → (extractFace vd uid we).1 = PLACEHOLDER_FACE_URL))) ∧
    (∀ (vd : String) (uid : Nat) (we : ExtractWorld) (ok : Bool) (c : Nat) (d : RResponse),
      we.submit = .resp ok c d → (!ok || jsTruthy d.error) = false →
      (∀ j, j < 20 → isPendingPoll (we.polls (j + 1)) = true) →
      (extractFace vd uid we).1 = PLACEHOLDER_FACE_URL) := by
  refine ⟨?_, ?_, ?_, ?_⟩
  · intro vd uid we m hsub
    simp [extractFace, hsub]
  · intro vd uid we ok c d hsub hbad
    simp [extractFace, hsub, hbad]
  · intro vd uid we ok c d i hsub hgood hlt hpre
    have hskip := extractLoop_skip we.polls i 0 (20 - i) (by
      intro j hj
      simpa using hpre j hj)
    rw [show i + (20 - i) = 20 by omega] at hskip
    rw [show (0 : Nat) + i = i by omega] at hskip
    rw [show 20 - i = (19 - i) + 1 by omega] at hskip
    refine ⟨?_, ?_⟩
    · intro ok2 c2 sd hpoll hfd
      have sfx : (("failed" : String) == "succeeded") = false := rfl
      have sfy : (("failed" : String) == "failed") = true := rfl
      have hstep : extractLoop we.polls i ((19 - i) + 1) = .failedJob sd := by
        simp [extractLoop, hpoll, hfd, sfx, sfy]
      simp [extractFace, hsub, hgood, hskip, hstep]
    · intro m hpoll
      have hstep : extractLoop we.polls i ((19 - i) + 1) = .thrown m := by
        simp [extractLoop, hpoll]
      simp [extractFace, hsub, hgood, hskip, hstep]
  · intro vd uid we ok c d hsub hgood hpre
    have hskip := extractLoop_skip we.polls 20 0 0 (by
      intro j hj
      simpa using hpre j hj)
    rw [show (20 : Nat) + 0 = 20 by omega] at hskip
    have hT : extractLoop we.polls 20 0 = .timedOut := rfl
    simp [extractFace, hsub, hgood, hskip, hT]

/-- Witness for `extractFace_total_placeholder_on_failure`: a successful
submit followed by a first poll reporting a failed extraction job returns
the placeholder URL. -/
theorem extractFace_total_placeholder_on_failure_witness :
    (extractFace "data:video" 5 wWorldC10).1 = PLACEHOLDER_FACE_URL :=
  (extractFace_total_placeholder_on_failure.2.2.1 "data:video" 5 wWorldC10
    true 201 ⟨"e1", "starting", .vnull, none⟩ 0 rfl rfl (by omega)
    (fun j hj => absurd hj (by omega))).1
    true 200 ⟨"e1", "failed", .vnull, some "no face"⟩ rfl rfl
